import Mathlib

/-!
Verification of the Snap2Serve gesture gate core.

The definitions below are shallow embeddings of the TypeScript source:
- detectGestureJS, isFingerExtended, isThumbExtended, the stability
  debouncer and the gate state machine come from
  frontend/app/components/GestureGateModal.tsx;
- the action coordinator (pending slot, success and cancel handlers)
  comes from frontend/app/context/GestureGateContext.tsx;
- processGesture and emit come from frontend/lib/EmoteDetector.ts.

Numbers are rationals (JS floating point treated as exact arithmetic)
and timestamps are integers in milliseconds.
-/

namespace Snap2Serve

/-- One hand landmark, normalized coordinates (z is unused by the classifier). -/
structure Landmark where
  x : ℚ
  y : ℚ
  z : ℚ := 0
deriving DecidableEq

/-- Per-frame classification result of the pose classifier. -/
inductive Gesture
  | none
  | six
  | seven
deriving DecidableEq

/-- Indexing into the landmark list; in the source the list always has 21
entries when indexed (guarded by the length check in detectGestureJS). -/
def getLm (lm : List Landmark) (i : Nat) : Landmark :=
  lm.getD i ⟨0, 0, 0⟩

/-- GestureGateModal.tsx lines 39-41: a finger is extended iff the tip y is
less than the pip y minus 0.02 (0.02 = 1/50). -/
def isFingerExtended (lm : List Landmark) (tipIdx pipIdx : Nat) : Bool :=
  decide ((getLm lm tipIdx).y < (getLm lm pipIdx).y - 1/50)

/-- Squared planar distance between two landmarks (x and y only), as in the
source which takes sqrt of exactly this quantity. -/
def planarDist2 (p q : Landmark) : ℚ :=
  (p.x - q.x) ^ 2 + (p.y - q.y) ^ 2

/-- GestureGateModal.tsx lines 44-51: the thumb is extended iff
sqrt(tipToMcp2) > sqrt(ipToMcp2) * 1.1.  Since both distances are
non-negative this is equivalent to the squared comparison
100 * tipToMcp2 > 121 * ipToMcp2, which keeps the definition computable;
the equivalence with the sqrt form is proved in thumb_sqrt_charac. -/
def isThumbExtended (lm : List Landmark) : Bool :=
  decide (121 * planarDist2 (getLm lm 3) (getLm lm 2) <
    100 * planarDist2 (getLm lm 4) (getLm lm 2))

/-- GestureGateModal.tsx lines 35-70: the per-frame pose classifier. -/
def detectGestureJS (lm : List Landmark) : Gesture :=
  if lm.length < 21 then Gesture.none
  else
    let thumb := isThumbExtended lm
    let index := isFingerExtended lm 8 6
    let middle := isFingerExtended lm 12 10
    let ring := isFingerExtended lm 16 14
    let pinky := isFingerExtended lm 20 18
    if thumb && pinky && !index && !middle && !ring then Gesture.six
    else if index && middle && !thumb && !ring && !pinky then Gesture.seven
    else Gesture.none

/-- The squared distance is non-negative. -/
theorem planarDist2_nonneg (p q : Landmark) : 0 ≤ planarDist2 p q := by
  unfold planarDist2; positivity

/-- The computable squared-comparison thumb test coincides with the sqrt
comparison written in the source. -/
theorem thumb_sqrt_charac (lm : List Landmark) :
    isThumbExtended lm = true ↔
      (11 / 10 : ℝ) * Real.sqrt ((planarDist2 (getLm lm 3) (getLm lm 2) : ℚ) : ℝ) <
        Real.sqrt ((planarDist2 (getLm lm 4) (getLm lm 2) : ℚ) : ℝ) := by
  have hB : (0 : ℝ) ≤ ((planarDist2 (getLm lm 3) (getLm lm 2) : ℚ) : ℝ) := by
    exact_mod_cast planarDist2_nonneg _ _
  have hA : (0 : ℝ) ≤ ((planarDist2 (getLm lm 4) (getLm lm 2) : ℚ) : ℝ) := by
    exact_mod_cast planarDist2_nonneg _ _
  rw [isThumbExtended, decide_eq_true_iff]
  have hsq : (11 / 10 : ℝ) * Real.sqrt ((planarDist2 (getLm lm 3) (getLm lm 2) : ℚ) : ℝ)
      = Real.sqrt (121 / 100 * ((planarDist2 (getLm lm 3) (getLm lm 2) : ℚ) : ℝ)) := by
    rw [Real.sqrt_mul (by norm_num)]
    congr 1
    rw [show (121 / 100 : ℝ) = (11 / 10 : ℝ) ^ 2 by norm_num]
    exact (Real.sqrt_sq (by norm_num)).symm
  rw [hsq]
  rw [Real.sqrt_lt_sqrt_iff (by positivity)]
  constructor
  · intro h
    have h' : (121 : ℝ) * ((planarDist2 (getLm lm 3) (getLm lm 2) : ℚ) : ℝ) <
        100 * ((planarDist2 (getLm lm 4) (getLm lm 2) : ℚ) : ℝ) := by exact_mod_cast h
    linarith
  · intro h
    have h' : (121 : ℝ) * ((planarDist2 (getLm lm 3) (getLm lm 2) : ℚ) : ℝ) <
        100 * ((planarDist2 (getLm lm 4) (getLm lm 2) : ℚ) : ℝ) := by linarith
    exact_mod_cast h'

/-- GestureGateModal.tsx line 90. -/
def STABLE_FRAMES : Nat := 3

/-- The mutable refs of the stability debouncer
(GestureGateModal.tsx lines 87-89). -/
structure DebState where
  pendingGesture : Gesture
  stableCount : Nat
  canScore : Bool
deriving DecidableEq

/-- Debouncer state right after handleStart (GestureGateModal.tsx 147-149). -/
def debInit : DebState := ⟨Gesture.none, 0, true⟩

/-- One onFrame step of the stability debouncer
(GestureGateModal.tsx lines 113-138): returns the new state and whether a
ScoreEvent is emitted on this frame. -/
def debStep (s : DebState) (g : Gesture) : DebState × Bool :=
  let pending := if g = s.pendingGesture ∧ g ≠ Gesture.none then s.pendingGesture else g
  let stable :=
    if g = s.pendingGesture ∧ g ≠ Gesture.none then s.stableCount + 1
    else if g ≠ Gesture.none then 1 else 0
  let scored := decide (STABLE_FRAMES ≤ stable) && decide (g ≠ Gesture.none) && s.canScore
  let canScore1 := if scored = true then false else s.canScore
  let canScore2 := if g = Gesture.none then true else canScore1
  (⟨pending, stable, canScore2⟩, scored)

/-- Run the debouncer over a list of frames, counting emitted ScoreEvents. -/
def debRun (s : DebState) : List Gesture → DebState × Nat
  | [] => (s, 0)
  | g :: gs =>
    let p := debStep s g
    let r := debRun p.1 gs
    (r.1, (if p.2 then 1 else 0) + r.2)

/-- Run the debouncer over timestamped frames, collecting the timestamps of
emitted ScoreEvents.  The timestamps are mere annotations: exactly as in the
source, the scoring decision in onFrame reads no clock. -/
def debRunT (s : DebState) : List (Gesture × Int) → DebState × List Int
  | [] => (s, [])
  | (g, t) :: gs =>
    let p := debStep s g
    let r := debRunT p.1 gs
    (r.1, (if p.2 then [t] else []) ++ r.2)

/-- A step on a non-None frame from a disarmed state stays disarmed and
emits nothing new beyond the scored flag being false. -/
theorem debStep_disarmed (s : DebState) (g : Gesture) (hc : s.canScore = false)
    (hg : g ≠ Gesture.none) :
    (debStep s g).1.canScore = false ∧ (debStep s g).2 = false := by
  unfold debStep
  simp [hc, hg]

/-- From a disarmed state, a sequence of frames that never passes through
None emits no ScoreEvent at all. -/
theorem debRun_disarmed (gs : List Gesture) : ∀ s : DebState, s.canScore = false →
    (∀ x ∈ gs, x ≠ Gesture.none) → (debRun s gs).2 = 0 ∧ (debRun s gs).1.canScore = false := by
  induction gs with
  | nil => intro s hc _; exact ⟨rfl, hc⟩
  | cons g gs ih =>
    intro s hc hall
    have hg : g ≠ Gesture.none := hall g (by simp)
    have hstep := debStep_disarmed s g hc hg
    have ihr := ih (debStep s g).1 hstep.1 (fun x hx => hall x (by simp [hx]))
    unfold debRun
    constructor
    · simp [hstep.2, ihr.1]
    · exact ihr.2

/-- First frame of a fresh run: the pending gesture changes hands and the
stable count restarts at one; nothing is scored yet. -/
theorem debStep_newRun (s : DebState) (g : Gesture) (hp : s.pendingGesture ≠ g)
    (hg : g ≠ Gesture.none) (hc : s.canScore = true) :
    debStep s g = (⟨g, 1, true⟩, false) := by
  unfold debStep
  simp [Ne.symm hp, hg, hc, STABLE_FRAMES]

/-- Second identical frame: the stable count grows to two, still no score. -/
theorem debStep_second (g : Gesture) (hg : g ≠ Gesture.none) :
    debStep ⟨g, 1, true⟩ g = (⟨g, 2, true⟩, false) := by
  unfold debStep
  simp [hg, STABLE_FRAMES]

/-- Third identical frame: the stability threshold is reached, a ScoreEvent
is emitted and the debouncer disarms itself. -/
theorem debStep_third (g : Gesture) (hg : g ≠ Gesture.none) :
    debStep ⟨g, 2, true⟩ g = (⟨g, 3, false⟩, true) := by
  unfold debStep
  simp [hg, STABLE_FRAMES]

/-- Claim C7: starting from a re-armed state, holding one and the same
non-None pose scores nothing for the first STABLE_FRAMES - 1 frames, scores
exactly once on the STABLE_FRAMES-th consecutive identical frame, and never
scores again while the pose continues without an intervening None frame. -/
theorem debouncer_scores_once (s : DebState) (g : Gesture) (n : Nat)
    (hc : s.canScore = true) (hg : g ≠ Gesture.none) (hp : s.pendingGesture ≠ g) :
    (debRun s (List.replicate n g)).2 = if n < STABLE_FRAMES then 0 else 1 := by
  match n with
  | 0 => simp [debRun, STABLE_FRAMES]
  | 1 =>
    simp [debRun, debStep_newRun s g hp hg hc, STABLE_FRAMES]
  | 2 =>
    simp [debRun, debStep_newRun s g hp hg hc, debStep_second g hg, STABLE_FRAMES]
  | (m + 3) =>
    have hrep : List.replicate (m + 3) g = g :: g :: g :: List.replicate m g := by
      simp [List.replicate_succ]
    have hd := (debRun_disarmed (List.replicate m g) ⟨g, 3, false⟩ rfl
      (fun x hx => by rw [List.eq_of_mem_replicate hx]; exact hg)).1
    rw [hrep]
    simp [debRun, debStep_newRun s g hp hg hc, debStep_second g hg,
      debStep_third g hg, hd, STABLE_FRAMES]

/-- Witness for C7: from the fresh debouncer state, five consecutive six
frames score exactly once. -/
theorem debouncer_scores_once_witness :
    debInit.canScore = true ∧ Gesture.six ≠ Gesture.none ∧
      debInit.pendingGesture ≠ Gesture.six ∧
      (debRun debInit (List.replicate 5 Gesture.six)).2 =
        if 5 < STABLE_FRAMES then 0 else 1 :=
  ⟨rfl, by decide, by decide,
    debouncer_scores_once debInit Gesture.six 5 rfl (by decide) (by decide)⟩

/-- Claim C10: a frame that scores disarms the debouncer; from a disarmed
state no None-free frame sequence (in particular switching directly between
six and seven) ever scores again; and a disarmed debouncer is re-armed only
by a frame that classifies as None. -/
theorem debouncer_rearm_only_on_none (s t : DebState) (g h : Gesture) (gs : List Gesture) :
    ((debStep s g).2 = true → (debStep s g).1.canScore = false) ∧
    (t.canScore = false → (∀ x ∈ gs, x ≠ Gesture.none) → (debRun t gs).2 = 0) ∧
    (t.canScore = false → (debStep t h).1.canScore = true → h = Gesture.none) := by
  refine ⟨?_, fun hc hall => (debRun_disarmed gs t hc hall).1, ?_⟩
  · intro hsc
    by_cases hg : g = Gesture.none
    · simp [debStep, hg] at hsc
    · simp [debStep, hg] at hsc ⊢
      simp [hsc.1, hsc.2]
  · intro hc ht
    by_contra hg
    simp [debStep, hg, hc] at ht

/-- Witness for C10: a scored six frame disarms the state, a seven-only
sequence from a disarmed state scores zero times, and a None frame re-arms. -/
theorem debouncer_rearm_only_on_none_witness :
    (debStep ⟨Gesture.six, 2, true⟩ Gesture.six).1.canScore = false ∧
    (debRun ⟨Gesture.six, 3, false⟩ [Gesture.seven, Gesture.seven, Gesture.seven]).2 = 0 ∧
    Gesture.none = Gesture.none :=
  ⟨(debouncer_rearm_only_on_none ⟨Gesture.six, 2, true⟩ ⟨Gesture.six, 3, false⟩
      Gesture.six Gesture.none [Gesture.seven, Gesture.seven, Gesture.seven]).1 (by decide),
   (debouncer_rearm_only_on_none ⟨Gesture.six, 2, true⟩ ⟨Gesture.six, 3, false⟩
      Gesture.six Gesture.none [Gesture.seven, Gesture.seven, Gesture.seven]).2.1 rfl (by decide),
   (debouncer_rearm_only_on_none ⟨Gesture.six, 2, true⟩ ⟨Gesture.six, 3, false⟩
      Gesture.six Gesture.none [Gesture.seven, Gesture.seven, Gesture.seven]).2.2 rfl (by decide)⟩

/-- Claim C6: on at least 21 landmarks the classifier returns Six exactly for
thumb plus pinky extended with index, middle and ring folded, Seven exactly
for index plus middle extended with thumb, ring and pinky folded, and None
otherwise; a finger is extended iff its tip y is below its pip y minus 0.02,
the thumb iff the planar distance tip-to-MCP exceeds 1.1 times IP-to-MCP;
on fewer than 21 landmarks it returns None. -/
theorem detectGestureJS_correct (lm : List Landmark) :
    (lm.length < 21 → detectGestureJS lm = Gesture.none) ∧
    (21 ≤ lm.length →
      ((detectGestureJS lm = Gesture.six ↔
          isThumbExtended lm = true ∧ isFingerExtended lm 20 18 = true ∧
          isFingerExtended lm 8 6 = false ∧ isFingerExtended lm 12 10 = false ∧
          isFingerExtended lm 16 14 = false) ∧
       (detectGestureJS lm = Gesture.seven ↔
          isFingerExtended lm 8 6 = true ∧ isFingerExtended lm 12 10 = true ∧
          isThumbExtended lm = false ∧ isFingerExtended lm 16 14 = false ∧
          isFingerExtended lm 20 18 = false) ∧
       (detectGestureJS lm = Gesture.none ↔
          ¬ (isThumbExtended lm = true ∧ isFingerExtended lm 20 18 = true ∧
             isFingerExtended lm 8 6 = false ∧ isFingerExtended lm 12 10 = false ∧
             isFingerExtended lm 16 14 = false) ∧
          ¬ (isFingerExtended lm 8 6 = true ∧ isFingerExtended lm 12 10 = true ∧
             isThumbExtended lm = false ∧ isFingerExtended lm 16 14 = false ∧
             isFingerExtended lm 20 18 = false)))) ∧
    (∀ tipIdx pipIdx : Nat, isFingerExtended lm tipIdx pipIdx = true ↔
      (getLm lm tipIdx).y < (getLm lm pipIdx).y - 1/50) ∧
    (isThumbExtended lm = true ↔
      (11 / 10 : ℝ) * Real.sqrt ((planarDist2 (getLm lm 3) (getLm lm 2) : ℚ) : ℝ) <
        Real.sqrt ((planarDist2 (getLm lm 4) (getLm lm 2) : ℚ) : ℝ)) := by
  refine ⟨fun h => by simp [detectGestureJS, h], fun h => ?_,
    fun tipIdx pipIdx => by simp [isFingerExtended], thumb_sqrt_charac lm⟩
  have hlen : ¬ lm.length < 21 := by omega
  cases h1 : isThumbExtended lm <;> cases h2 : isFingerExtended lm 8 6 <;>
    cases h3 : isFingerExtended lm 12 10 <;> cases h4 : isFingerExtended lm 16 14 <;>
    cases h5 : isFingerExtended lm 20 18 <;>
    simp [detectGestureJS, hlen, h1, h2, h3, h4, h5]

/-- A concrete 21-landmark hand showing the six gesture: thumb and pinky
extended, the other fingers folded. -/
def sixHand : List Landmark :=
  [⟨0, 1/2, 0⟩, ⟨0, 1/2, 0⟩, ⟨0, 1/2, 0⟩, ⟨1/10, 1/2, 0⟩, ⟨1/2, 1/2, 0⟩,
   ⟨0, 1/2, 0⟩, ⟨0, 1/2, 0⟩, ⟨0, 1/2, 0⟩, ⟨0, 1/2, 0⟩, ⟨0, 1/2, 0⟩,
   ⟨0, 1/2, 0⟩, ⟨0, 1/2, 0⟩, ⟨0, 1/2, 0⟩, ⟨0, 1/2, 0⟩, ⟨0, 1/2, 0⟩,
   ⟨0, 1/2, 0⟩, ⟨0, 1/2, 0⟩, ⟨0, 1/2, 0⟩, ⟨0, 1/2, 0⟩, ⟨0, 1/2, 0⟩,
   ⟨0, 1/5, 0⟩]

/-- Witness for C6: the concrete hand has 21 landmarks and classifies as six
via the six characterization of the theorem. -/
theorem detectGestureJS_correct_witness :
    21 ≤ sixHand.length ∧ detectGestureJS sixHand = Gesture.six :=
  ⟨by decide, ((detectGestureJS_correct sixHand).2.1 (by decide)).1.mpr
    (by refine ⟨?_, ?_, ?_, ?_, ?_⟩ <;>
      norm_num [isThumbExtended, isFingerExtended, planarDist2, getLm, sixHand, List.getD])⟩

/-- Modal gate state (GestureGateModal.tsx line 24). -/
inductive GateState
  | idle
  | running
  | success
  | failed
deriving DecidableEq

/-- Status of one protectAction callers promise. -/
inductive Outcome
  | unsettled
  | resolved
  | actionFailed
  | cancelled
deriving DecidableEq

/-- The GestureGateProvider configuration (GestureGateContext.tsx 57-62). -/
structure Cfg where
  enabled : Bool
  targetCount : Nat
  timeLimit : Nat
deriving DecidableEq

/-- Default configuration: enabled, 50 gestures, 30 seconds. -/
def defaultCfg : Cfg := ⟨true, 50, 30⟩

/-- Combined state of the coordinator (GestureGateContext.tsx) and the modal
(GestureGateModal.tsx).  Callers of protectAction get consecutive ids; slot
is pendingActionRef (carrying the caller id and whether its action succeeds
when run), outcome tracks each callers promise and runs how many times each
callers action has been invoked. -/
structure Sys where
  slot : Option (Nat × Bool)
  nextId : Nat
  outcome : Nat → Outcome
  runs : Nat → Nat
  active : Bool
  gate : GateState
  count : Nat
  remaining : Nat
  deb : DebState

/-- Events of the closed application: protectAction calls from pages, camera
frames, the one-second timer, the modal buttons and the success settle
callback.  The exported bypassGate escape hatch is invoked nowhere in the
repository and therefore has no event. -/
inductive Ev
  | protect (succeeds : Bool)
  | frame (g : Gesture)
  | tick
  | startClick
  | restartClick
  | cancelClick
  | successNotify

/-- Delivery of one ScoreEvent to the gate session: the setCount updater in
onFrame (GestureGateModal.tsx lines 122-129), reachable only while the gate
is running (line 107). -/
def scoreEvent (cfg : Cfg) (s : Sys) : Sys :=
  if s.gate = GateState.running then
    { s with count := s.count + 1,
             gate := if cfg.targetCount ≤ s.count + 1 then GateState.success
                     else GateState.running }
  else s

/-- Modal cleanup when it closes or resets
(GestureGateModal.tsx lines 169-177 and 221-231). -/
def modalReset (cfg : Cfg) (s : Sys) : Sys :=
  { s with gate := GateState.idle, count := 0, remaining := cfg.timeLimit }

/-- handleSuccess (GestureGateContext.tsx lines 86-98): run the stored
action, settle the pending caller with its outcome, clear the slot and
deactivate the gate. -/
def runPending (s : Sys) : Sys :=
  match s.slot with
  | some (c, b) =>
    { s with runs := Function.update s.runs c (s.runs c + 1),
             outcome := Function.update s.outcome c
               (if b then Outcome.resolved else Outcome.actionFailed),
             slot := Option.none, active := false }
  | Option.none => { s with active := false }

/-- handleCancel (GestureGateContext.tsx lines 100-106): reject the pending
caller with the cancellation error, clear the slot, deactivate the gate. -/
def cancelPending (s : Sys) : Sys :=
  match s.slot with
  | some (c, _) =>
    { s with outcome := Function.update s.outcome c Outcome.cancelled,
             slot := Option.none, active := false }
  | Option.none => { s with active := false }

/-- One step of the closed application. -/
def step (cfg : Cfg) (s : Sys) : Ev → Sys
  | Ev.protect b =>
    if cfg.enabled = false then
      { s with nextId := s.nextId + 1,
               runs := Function.update s.runs s.nextId (s.runs s.nextId + 1),
               outcome := Function.update s.outcome s.nextId
                 (if b then Outcome.resolved else Outcome.actionFailed) }
    else
      { s with slot := some (s.nextId, b), nextId := s.nextId + 1, active := true }
  | Ev.frame g =>
    if s.active = true ∧ s.gate = GateState.running then
      let p := debStep s.deb g
      if p.2 then scoreEvent cfg { s with deb := p.1 } else { s with deb := p.1 }
    else s
  | Ev.tick =>
    if s.gate = GateState.running then
      if s.remaining ≤ 1 then { s with gate := GateState.failed, remaining := 0 }
      else { s with remaining := s.remaining - 1 }
    else s
  | Ev.startClick =>
    if s.active = true ∧ s.gate = GateState.idle then
      { s with gate := GateState.running, count := 0, remaining := cfg.timeLimit,
               deb := debInit }
    else s
  | Ev.restartClick =>
    if s.active = true ∧ (s.gate = GateState.running ∨ s.gate = GateState.failed) then
      { s with gate := GateState.idle, count := 0, remaining := cfg.timeLimit,
               deb := debInit }
    else s
  | Ev.cancelClick =>
    if s.active = true then modalReset cfg (cancelPending s) else s
  | Ev.successNotify =>
    if s.gate = GateState.success then modalReset cfg (runPending s) else s

/-- Initial state of the application. -/
def initSys (cfg : Cfg) : Sys :=
  { slot := Option.none, nextId := 0, outcome := fun _ => Outcome.unsettled,
    runs := fun _ => 0, active := false, gate := GateState.idle,
    count := 0, remaining := cfg.timeLimit, deb := debInit }

/-- Run the application over a list of events. -/
def runEvents (cfg : Cfg) (es : List Ev) : Sys :=
  es.foldl (step cfg) (initSys cfg)

/-- Coordinator invariant: future callers are fresh, the slotted caller has
never run and is unsettled, no caller runs more than once, and a cancelled
caller never ran. -/
def Inv (s : Sys) : Prop :=
  (∀ c, s.nextId ≤ c → s.outcome c = Outcome.unsettled ∧ s.runs c = 0) ∧
  (∀ c b, s.slot = some (c, b) →
    c < s.nextId ∧ s.runs c = 0 ∧ s.outcome c = Outcome.unsettled) ∧
  (∀ c, s.runs c ≤ 1) ∧
  (∀ c, s.outcome c = Outcome.cancelled → s.runs c = 0)

/-- The invariant holds initially. -/
theorem inv_init (cfg : Cfg) : Inv (initSys cfg) :=
  ⟨fun _ _ => ⟨rfl, rfl⟩, fun _ _ h => by simp [initSys] at h,
   fun _ => by simp [initSys], fun _ h => rfl⟩

/-- The invariant is preserved by every event. -/
theorem inv_step (cfg : Cfg) (s : Sys) (e : Ev) (h : Inv s) : Inv (step cfg s e) := by
  obtain ⟨h1, h2, h3, h4⟩ := h
  cases e with
  | protect b =>
    by_cases hen : cfg.enabled = false
    · simp only [step, if_pos hen]
      refine ⟨?_, ?_, ?_, ?_⟩ <;> dsimp only
      · intro c hc
        have hne : s.nextId ≠ c := by omega
        simp only [Function.update_noteq (Ne.symm hne)]
        exact h1 c (by omega)
      · intro c b' hslot
        obtain ⟨hlt, hr, ho⟩ := h2 c b' hslot
        have hne : c ≠ s.nextId := by omega
        exact ⟨by omega, by simp [Function.update_noteq hne, hr],
          by simp [Function.update_noteq hne, ho]⟩
      · intro c
        by_cases hc : c = s.nextId
        · subst hc
          have hz := (h1 s.nextId le_rfl).2
          simp [Function.update_same, hz]
        · simp only [Function.update_noteq hc]
          exact h3 c
      · intro c hc
        by_cases hceq : c = s.nextId
        · subst hceq
          simp only [Function.update_same] at hc
          cases b <;> simp at hc
        · simp only [Function.update_noteq hceq] at hc ⊢
          exact h4 c hc
    · simp only [step, if_neg hen]
      refine ⟨?_, ?_, h3, h4⟩ <;> dsimp only
      · exact fun c hc => h1 c (by omega)
      · intro c b' hslot
        simp only [Option.some.injEq, Prod.mk.injEq] at hslot
        obtain ⟨hcs, _⟩ := hslot
        subst hcs
        exact ⟨by omega, (h1 s.nextId le_rfl).2, (h1 s.nextId le_rfl).1⟩
  | frame g =>
    simp only [step]
    split
    · split
      · unfold scoreEvent
        split
        · exact ⟨h1, h2, h3, h4⟩
        · exact ⟨h1, h2, h3, h4⟩
      · exact ⟨h1, h2, h3, h4⟩
    · exact ⟨h1, h2, h3, h4⟩
  | tick =>
    simp only [step]
    split
    · split
      · exact ⟨h1, h2, h3, h4⟩
      · exact ⟨h1, h2, h3, h4⟩
    · exact ⟨h1, h2, h3, h4⟩
  | startClick =>
    simp only [step]
    split
    · exact ⟨h1, h2, h3, h4⟩
    · exact ⟨h1, h2, h3, h4⟩
  | restartClick =>
    simp only [step]
    split
    · exact ⟨h1, h2, h3, h4⟩
    · exact ⟨h1, h2, h3, h4⟩
  | cancelClick =>
    simp only [step]
    split
    · unfold modalReset cancelPending
      cases hs : s.slot with
      | none => exact ⟨h1, fun c b hsl => by simp at hsl, h3, h4⟩
      | some p =>
        obtain ⟨c, b⟩ := p
        obtain ⟨hlt, hr, ho⟩ := h2 c b hs
        refine ⟨?_, ?_, h3, ?_⟩ <;> dsimp only
        · intro c' hc'
          have hne : c' ≠ c := by omega
          simp only [Function.update_noteq hne]
          exact h1 c' hc'
        · intro c' b' hsl
          simp at hsl
        · intro c' hc'
          by_cases hceq : c' = c
          · subst hceq
            exact hr
          · simp only [Function.update_noteq hceq] at hc'
            exact h4 c' hc'
    · exact ⟨h1, h2, h3, h4⟩
  | successNotify =>
    simp only [step]
    split
    · unfold modalReset runPending
      cases hs : s.slot with
      | none => exact ⟨h1, fun c b hsl => by simp at hsl, h3, h4⟩
      | some p =>
        obtain ⟨c, b⟩ := p
        obtain ⟨hlt, hr, ho⟩ := h2 c b hs
        refine ⟨?_, ?_, ?_, ?_⟩ <;> dsimp only
        · intro c' hc'
          have hne : c' ≠ c := by omega
          simp only [Function.update_noteq hne]
          exact h1 c' hc'
        · intro c' b' hsl
          simp at hsl
        · intro c'
          by_cases hceq : c' = c
          · subst hceq
            simp [Function.update_same, hr]
          · simp only [Function.update_noteq hceq]
            exact h3 c'
        · intro c' hc'
          by_cases hceq : c' = c
          · subst hceq
            simp only [Function.update_same] at hc'
            cases b <;> simp at hc'
          · simp only [Function.update_noteq hceq] at hc' ⊢
            exact h4 c' hc'
    · exact ⟨h1, h2, h3, h4⟩

/-- The invariant holds along any run from any invariant state. -/
theorem inv_foldl (cfg : Cfg) (es : List Ev) :
    ∀ s : Sys, Inv s → Inv (es.foldl (step cfg) s) := by
  induction es with
  | nil => exact fun s h => h
  | cons e es ih => exact fun s h => ih _ (inv_step cfg s e h)

/-- The invariant holds in every reachable state. -/
theorem inv_run (cfg : Cfg) (es : List Ev) : Inv (runEvents cfg es) :=
  inv_foldl cfg es (initSys cfg) (inv_init cfg)

/-- With gating enabled, no event changes the run counters except the
success settle step from a session in Success. -/
theorem step_runs_unchanged (cfg : Cfg) (s : Sys) (e : Ev) (hE : cfg.enabled = true)
    (hne : e = Ev.successNotify → s.gate ≠ GateState.success) :
    (step cfg s e).runs = s.runs := by
  cases e with
  | protect b =>
    simp only [step, hE]
    rfl
  | frame g =>
    simp only [step]
    split
    · split
      · unfold scoreEvent
        split <;> rfl
      · rfl
    · rfl
  | tick =>
    simp only [step]
    split
    · split <;> rfl
    · rfl
  | startClick =>
    simp only [step]
    split <;> rfl
  | restartClick =>
    simp only [step]
    split <;> rfl
  | cancelClick =>
    simp only [step]
    split
    · unfold modalReset cancelPending
      cases s.slot <;> rfl
    · rfl
  | successNotify =>
    simp only [step]
    split
    · exact absurd (by assumption) (hne rfl)
    · rfl

/-- Claim C1: with gating enabled, the action wrapped by a protect call runs
at most once over any run of the application, a run counter increases only
at the success settle step of a session in Success, and nothing runs while
the session sits in Failed. -/
theorem protect_runs_once_only_after_success (cfg : Cfg) (es : List Ev)
    (s t : Sys) (e f : Ev) (c : Nat) (hE : cfg.enabled = true) :
    ((runEvents cfg es).runs c ≤ 1) ∧
    (s.runs c < (step cfg s e).runs c →
      e = Ev.successNotify ∧ s.gate = GateState.success) ∧
    (t.gate = GateState.failed → (step cfg t f).runs c = t.runs c) := by
  refine ⟨(inv_run cfg es).2.2.1 c, ?_, ?_⟩
  · intro hlt
    by_cases hsucc : e = Ev.successNotify ∧ s.gate = GateState.success
    · exact hsucc
    · exfalso
      have hrr : (step cfg s e).runs = s.runs :=
        step_runs_unchanged cfg s e hE (fun he hg => hsucc ⟨he, hg⟩)
      rw [hrr] at hlt
      exact lt_irrefl _ hlt
  · intro hf
    have hrr : (step cfg t f).runs = t.runs := by
      apply step_runs_unchanged cfg t f hE
      intro _ hg
      rw [hf] at hg
      exact absurd hg (by decide)
    exact congrFun hrr c

/-- A reachable state whose session is in Success with a pending caller. -/
def sSucc : Sys :=
  { initSys defaultCfg with
    gate := GateState.success
    slot := some (0, true)
    nextId := 1
    active := true }

/-- A reachable state whose session is in Failed with a pending caller. -/
def sFailed : Sys :=
  { initSys defaultCfg with
    gate := GateState.failed
    slot := some (0, true)
    nextId := 1
    active := true }

/-- Witness for C1 at concrete states and traces. -/
theorem protect_runs_once_only_after_success_witness :
    (runEvents defaultCfg [Ev.protect true]).runs 0 ≤ 1 ∧
    (Ev.successNotify = Ev.successNotify ∧ sSucc.gate = GateState.success) ∧
    (step defaultCfg sFailed Ev.tick).runs 0 = sFailed.runs 0 :=
  ⟨(protect_runs_once_only_after_success defaultCfg [Ev.protect true] sSucc sFailed
      Ev.successNotify Ev.tick 0 rfl).1,
   (protect_runs_once_only_after_success defaultCfg [Ev.protect true] sSucc sFailed
      Ev.successNotify Ev.tick 0 rfl).2.1 (by decide),
   (protect_runs_once_only_after_success defaultCfg [Ev.protect true] sSucc sFailed
      Ev.successNotify Ev.tick 0 rfl).2.2 rfl⟩

/-- Claim C5: the success settle step resolves the pending caller with the
outcome of its action (running it once); a promise becomes resolved only
through that step; the cancel click rejects the pending caller with the
cancellation outcome without running its action; the cancellation outcome is
distinguishable from an action failure; and a cancelled caller never runs. -/
theorem protect_resolution_and_cancel (cfg : Cfg) (es : List Ev)
    (s t u : Sys) (e : Ev) (c cr cu : Nat) (b bu : Bool) (hE : cfg.enabled = true) :
    (s.gate = GateState.success → s.slot = some (c, b) →
      (step cfg s Ev.successNotify).outcome c =
        (if b then Outcome.resolved else Outcome.actionFailed) ∧
      (step cfg s Ev.successNotify).runs c = s.runs c + 1) ∧
    ((step cfg t e).outcome cr = Outcome.resolved →
      t.outcome cr = Outcome.resolved ∨
        (e = Ev.successNotify ∧ t.gate = GateState.success)) ∧
    (u.active = true → u.slot = some (cu, bu) →
      (step cfg u Ev.cancelClick).outcome cu = Outcome.cancelled ∧
      (step cfg u Ev.cancelClick).runs cu = u.runs cu) ∧
    Outcome.cancelled ≠ Outcome.actionFailed ∧
    ((runEvents cfg es).outcome c = Outcome.cancelled → (runEvents cfg es).runs c = 0) := by
  refine ⟨?_, ?_, ?_, by decide, fun h => (inv_run cfg es).2.2.2 c h⟩
  · intro hg hslot
    simp only [step, if_pos hg]
    unfold modalReset runPending
    rw [hslot]
    dsimp only
    simp [Function.update_same]
  · intro hres
    by_cases hsucc : e = Ev.successNotify ∧ t.gate = GateState.success
    · exact Or.inr hsucc
    · refine Or.inl ?_
      cases e with
      | protect bb =>
        simp only [step, hE] at hres
        exact hres
      | frame g =>
        simp only [step] at hres
        revert hres
        split
        · split
          · unfold scoreEvent
            split <;> exact fun h => h
          · exact fun h => h
        · exact fun h => h
      | tick =>
        simp only [step] at hres
        revert hres
        split
        · split <;> exact fun h => h
        · exact fun h => h
      | startClick =>
        simp only [step] at hres
        revert hres
        split <;> exact fun h => h
      | restartClick =>
        simp only [step] at hres
        revert hres
        split <;> exact fun h => h
      | cancelClick =>
        simp only [step] at hres
        revert hres
        split
        · unfold modalReset cancelPending
          cases hs : t.slot with
          | none => exact fun h => h
          | some p =>
            obtain ⟨cc, bb⟩ := p
            dsimp only
            by_cases hceq : cr = cc
            · subst hceq
              rw [Function.update_same]
              exact fun h => absurd h (by decide)
            · rw [Function.update_noteq hceq]
              exact fun h => h
        · exact fun h => h
      | successNotify =>
        simp only [step] at hres
        revert hres
        split
        · intro _
          exact absurd ⟨rfl, by assumption⟩ hsucc
        · exact fun h => h
  · intro hact hslot
    simp only [step, if_pos hact]
    unfold modalReset cancelPending
    rw [hslot]
    dsimp only
    simp [Function.update_same]

/-- Witness for C5: concrete success settle, resolution, cancellation and a
cancelled trace. -/
theorem protect_resolution_and_cancel_witness :
    sSucc.gate = GateState.success ∧ sSucc.slot = some (0, true) ∧
    (step defaultCfg sSucc Ev.successNotify).outcome 0 =
      (if true then Outcome.resolved else Outcome.actionFailed) ∧
    (step defaultCfg sSucc Ev.successNotify).runs 0 = sSucc.runs 0 + 1 ∧
    (sSucc.outcome 0 = Outcome.resolved ∨
      (Ev.successNotify = Ev.successNotify ∧ sSucc.gate = GateState.success)) ∧
    (step defaultCfg sSucc Ev.cancelClick).outcome 0 = Outcome.cancelled ∧
    (step defaultCfg sSucc Ev.cancelClick).runs 0 = sSucc.runs 0 ∧
    Outcome.cancelled ≠ Outcome.actionFailed ∧
    (runEvents defaultCfg [Ev.protect true, Ev.cancelClick]).runs 0 = 0 := by
  have h := protect_resolution_and_cancel defaultCfg [Ev.protect true, Ev.cancelClick]
    sSucc sSucc sSucc Ev.successNotify 0 0 0 true true rfl
  have h1 := h.1 rfl rfl
  exact ⟨rfl, rfl, h1.1, h1.2, h.2.1 (by decide), (h.2.2.1 rfl rfl).1,
    (h.2.2.1 rfl rfl).2, h.2.2.2.1, h.2.2.2.2 (by decide)⟩

/-- Claim C2 (code bug evaluation): a second protect call while one caller
is already pending is not rejected; it is stored in the slot, displacing the
first caller, and both promises are left unsettled. -/
theorem protect_overwrites_pending :
    (runEvents defaultCfg [Ev.protect true, Ev.protect true]).slot = some (1, true) ∧
    (runEvents defaultCfg [Ev.protect true, Ev.protect true]).outcome 1 = Outcome.unsettled ∧
    (runEvents defaultCfg [Ev.protect true, Ev.protect true]).outcome 0 = Outcome.unsettled :=
  ⟨rfl, rfl, rfl⟩

/-- A configuration with a one-second time limit. -/
def cfgShort : Cfg := ⟨true, 50, 1⟩

/-- Protect, start the challenge, let the timer expire. -/
def failTrace : List Ev := [Ev.protect true, Ev.startClick, Ev.tick]

/-- Counterexample to C4: the session transitions to Failed and the pending
caller is still unsettled and still in the slot, so its promise was neither
resolved nor rejected at the time limit. -/
theorem failed_leaves_caller_pending :
    (runEvents cfgShort failTrace).gate = GateState.failed ∧
    (runEvents cfgShort failTrace).outcome 0 = Outcome.unsettled ∧
    (runEvents cfgShort failTrace).slot = some (0, true) :=
  ⟨rfl, rfl, rfl⟩

/-- Claim C4 amended: the tick event never touches the coordinator (so the
Failed transition settles no promise); the timer reaching zero moves a
running session to Failed; and a pending caller in a Failed session is
rejected with the cancellation outcome only on an explicit cancel. -/
theorem failed_amended (cfg : Cfg) (s t : Sys) (c : Nat) (b : Bool) :
    ((step cfg s Ev.tick).outcome = s.outcome ∧ (step cfg s Ev.tick).slot = s.slot ∧
      (step cfg s Ev.tick).runs = s.runs) ∧
    (s.gate = GateState.running → s.remaining ≤ 1 →
      (step cfg s Ev.tick).gate = GateState.failed) ∧
    (t.gate = GateState.failed → t.active = true → t.slot = some (c, b) →
      (step cfg t Ev.cancelClick).outcome c = Outcome.cancelled) := by
  refine ⟨?_, ?_, ?_⟩
  · simp only [step]
    split
    · split <;> exact ⟨rfl, rfl, rfl⟩
    · exact ⟨rfl, rfl, rfl⟩
  · intro hg hr
    simp only [step, if_pos hg, if_pos hr]
  · intro _ hact hslot
    simp only [step, if_pos hact]
    unfold modalReset cancelPending
    rw [hslot]
    dsimp only
    simp [Function.update_same]

/-- Witness for the amended C4: concrete running and failed states. -/
theorem failed_amended_witness :
    ((step cfgShort (runEvents cfgShort [Ev.protect true, Ev.startClick]) Ev.tick).outcome =
      (runEvents cfgShort [Ev.protect true, Ev.startClick]).outcome) ∧
    (step cfgShort (runEvents cfgShort [Ev.protect true, Ev.startClick]) Ev.tick).gate =
      GateState.failed ∧
    (step cfgShort (runEvents cfgShort failTrace) Ev.cancelClick).outcome 0 =
      Outcome.cancelled := by
  have h := failed_amended cfgShort (runEvents cfgShort [Ev.protect true, Ev.startClick])
    (runEvents cfgShort failTrace) 0 true
  exact ⟨h.1.1, h.2.1 rfl (by decide), h.2.2 rfl rfl rfl⟩

/-- A session not in Running ignores ScoreEvents. -/
theorem scoreEvent_fixed (cfg : Cfg) (s : Sys) (h : ¬ s.gate = GateState.running) :
    scoreEvent cfg s = s := by
  unfold scoreEvent
  rw [if_neg h]

/-- Counting lemma for ScoreEvents delivered to a running session. -/
theorem scoreEvent_counts (cfg : Cfg) : ∀ (n : Nat) (s : Sys),
    s.gate = GateState.running → s.count < cfg.targetCount →
    ((scoreEvent cfg)^[n] s).count = min (s.count + n) cfg.targetCount ∧
    (((scoreEvent cfg)^[n] s).gate = GateState.success ↔
      cfg.targetCount ≤ s.count + n) := by
  intro n
  induction n with
  | zero =>
    intro s hg hc
    constructor
    · simp only [Function.iterate_zero, id_eq]
      omega
    · simp only [Function.iterate_zero, id_eq, hg]
      constructor
      · intro hx; exact absurd hx (by decide)
      · omega
  | succ n ih =>
    intro s hg hc
    rw [Function.iterate_succ_apply]
    by_cases hreach : cfg.targetCount ≤ s.count + 1
    · have hstep : scoreEvent cfg s =
          { s with count := s.count + 1, gate := GateState.success } := by
        unfold scoreEvent
        rw [if_pos hg, if_pos hreach]
      have hfix : (scoreEvent cfg)^[n] (scoreEvent cfg s) = scoreEvent cfg s := by
        rw [hstep]
        exact Function.iterate_fixed (scoreEvent_fixed cfg _ (by intro hx; cases hx)) n
      rw [hfix, hstep]
      refine ⟨by dsimp only; omega, ?_⟩
      dsimp only
      constructor
      · intro _; omega
      · intro _; rfl
    · have hstep : scoreEvent cfg s =
          { s with count := s.count + 1, gate := GateState.running } := by
        unfold scoreEvent
        rw [if_pos hg, if_neg hreach]
      rw [hstep]
      have hrec := ih { s with count := s.count + 1, gate := GateState.running } rfl
        (by dsimp only; omega)
      dsimp only at hrec
      refine ⟨?_, ?_⟩
      · rw [hrec.1]; congr 1; omega
      · rw [hrec.2]; constructor <;> intro <;> omega

/-- Claim C3: delivering n ScoreEvents to a freshly started running session
leaves count at min n target, and the state is Success exactly when n has
reached the target. -/
theorem gateSession_count (cfg : Cfg) (s : Sys) (n : Nat) (ht : 1 ≤ cfg.targetCount)
    (hg : s.gate = GateState.running) (hc : s.count = 0) :
    ((scoreEvent cfg)^[n] s).count = min n cfg.targetCount ∧
    (((scoreEvent cfg)^[n] s).gate = GateState.success ↔ cfg.targetCount ≤ n) := by
  have h := scoreEvent_counts cfg n s hg (by omega)
  rw [hc] at h
  simpa using h

/-- A small configuration for the C3 witness: target two. -/
def cfgTwo : Cfg := ⟨true, 2, 30⟩

/-- Witness for C3: three ScoreEvents on a target-two session cap the count
at two and put the session in Success. -/
theorem gateSession_count_witness :
    1 ≤ cfgTwo.targetCount ∧
    (runEvents cfgTwo [Ev.protect true, Ev.startClick]).gate = GateState.running ∧
    (runEvents cfgTwo [Ev.protect true, Ev.startClick]).count = 0 ∧
    ((scoreEvent cfgTwo)^[3] (runEvents cfgTwo [Ev.protect true, Ev.startClick])).count =
      min 3 cfgTwo.targetCount ∧
    (((scoreEvent cfgTwo)^[3]
        (runEvents cfgTwo [Ev.protect true, Ev.startClick])).gate = GateState.success ↔
      cfgTwo.targetCount ≤ 3) := by
  have h := gateSession_count cfgTwo (runEvents cfgTwo [Ev.protect true, Ev.startClick])
    3 (by decide) rfl rfl
  exact ⟨by decide, rfl, rfl, h.1, h.2⟩

/-- Velocity and confidence of one tracked hand, the parts of HandState read
by processGesture (EmoteDetector.ts lines 38-44). -/
structure HandS where
  vY : ℚ
  confidence : ℚ
deriving DecidableEq

/-- EmoteDetector.ts lines 177-184: a hand below the confidence threshold
0.7 is treated as still and fully unconfident. -/
def clampHand (h : HandS) : HandS :=
  if h.confidence < 7/10 then ⟨0, 0⟩ else h

/-- EmoteDetector.ts lines 187-193: an up event is a velocity in
[-0.35, 0] on a hand with confidence at least 0.7. -/
def detectUp (h : HandS) : Bool :=
  decide (-(7/20 : ℚ) ≤ h.vY) && decide (h.vY ≤ 0) && decide ((7/10 : ℚ) ≤ h.confidence)

/-- EmoteDetector.ts lines 201 and 219: the other hand is inactive or
still. -/
def otherStill (h : HandS) : Bool :=
  decide (h.confidence < 7/10) || decide (h.vY ≤ 1/10)

/-- Alternation state (EmoteDetector.ts line 46). -/
inductive MState
  | idle
  | leftUp
  | rightUp
deriving DecidableEq

/-- Mutable state of the cycle detector plus the shared cooldown timestamp
lastHit of emit (EmoteDetector.ts lines 49 and 117-119); times in ms. -/
structure CycState where
  gestureState : MState
  cycleCount : Nat
  cycleStart : Int
  lastHit : Int
deriving DecidableEq

/-- The emit cooldown (EmoteDetector.ts lines 54-61): the callback fires
only when at least gap ms passed since lastHit, which is then updated. -/
def emit (gap : Int) (s : CycState) (now : Int) : CycState × Bool :=
  if gap ≤ now - s.lastHit then ({ s with lastHit := now }, true) else (s, false)

/-- processGesture (EmoteDetector.ts lines 172-243) on clamped hands: the
left-first alternation machine with the 2.5 s window, the emit call on the
completing transition, and the trailing stale-cycle expiry.  The unused
leftUpWindow and rightUpWindow assignments of the source are omitted: they
are written but never read. -/
def processGesture (gap : Int) (s : CycState) (leftIn rightIn : HandS)
    (now : Int) : CycState × Bool :=
  let left := clampHand leftIn
  let right := clampHand rightIn
  let leftUp := detectUp left
  let rightUp := detectUp right
  let r :=
    if leftUp = true ∧ ¬ s.gestureState = MState.leftUp then
      if otherStill right = true then
        if s.gestureState = MState.rightUp then
          if 2 ≤ s.cycleCount + 1 ∧ now - s.cycleStart ≤ 2500 then
            let e := emit gap s now
            ({ e.1 with cycleCount := 0, gestureState := MState.idle,
                        cycleStart := now }, e.2)
          else ({ s with cycleCount := s.cycleCount + 1,
                         gestureState := MState.leftUp }, false)
        else
          ({ s with gestureState := MState.leftUp,
                    cycleStart := if s.cycleCount = 0 then now else s.cycleStart },
           false)
      else (s, false)
    else if rightUp = true ∧ ¬ s.gestureState = MState.rightUp then
      if otherStill left = true then
        if s.gestureState = MState.leftUp then
          if 2 ≤ s.cycleCount + 1 ∧ now - s.cycleStart ≤ 2500 then
            let e := emit gap s now
            ({ e.1 with cycleCount := 0, gestureState := MState.idle,
                        cycleStart := now }, e.2)
          else ({ s with cycleCount := s.cycleCount + 1,
                         gestureState := MState.rightUp }, false)
        else
          ({ s with gestureState := MState.rightUp,
                    cycleStart := if s.cycleCount = 0 then now else s.cycleStart },
           false)
      else (s, false)
    else (s, false)
  if 2500 < now - r.1.cycleStart then
    ({ r.1 with cycleCount := 0, gestureState := MState.idle }, r.2)
  else r

/-- Which hand produced an up movement. -/
inductive Side
  | left
  | right
deriving DecidableEq

/-- A timed up event of one hand. -/
structure UpEvent where
  side : Side
  now : Int
deriving DecidableEq

/-- Velocity and confidence of a hand finishing an upward movement. -/
def activeHand : HandS := ⟨-1/10, 9/10⟩

/-- A hand that is currently not tracked. -/
def absentHand : HandS := ⟨0, 0⟩

/-- One processGesture call in which exactly one hand shows an up movement
and the other is absent. -/
def cycStepEv (gap : Int) (s : CycState) (e : UpEvent) : CycState × Bool :=
  match e.side with
  | Side.left => processGesture gap s activeHand absentHand e.now
  | Side.right => processGesture gap s absentHand activeHand e.now

/-- Run the cycle detector over a list of up events, collecting the
timestamps at which the score callback fired. -/
def cycRun (gap : Int) (s : CycState) : List UpEvent → CycState × List Int
  | [] => (s, [])
  | e :: es =>
    let p := cycStepEv gap s e
    let r := cycRun gap p.1 es
    (r.1, (if p.2 then [e.now] else []) ++ r.2)

/-- The active hand passes the up test. -/
theorem detectUp_active : detectUp (clampHand activeHand) = true := by
  norm_num [detectUp, clampHand, activeHand]

/-- The absent hand fails the up test. -/
theorem detectUp_absent : detectUp (clampHand absentHand) = false := by
  norm_num [detectUp, clampHand, absentHand]

/-- The absent hand counts as still. -/
theorem otherStill_absent : otherStill (clampHand absentHand) = true := by
  norm_num [otherStill, clampHand, absentHand]

/-- A left up from Idle with no cycle in progress starts a cycle at the
current time. -/
theorem cyc_left_from_idle (gap cs lh t : Int) :
    cycStepEv gap ⟨MState.idle, 0, cs, lh⟩ ⟨Side.left, t⟩ =
      (⟨MState.leftUp, 0, t, lh⟩, false) := by
  unfold cycStepEv processGesture
  simp [detectUp_active, detectUp_absent, otherStill_absent]

/-- A right up from Idle with no cycle in progress starts a cycle at the
current time. -/
theorem cyc_right_from_idle (gap cs lh t : Int) :
    cycStepEv gap ⟨MState.idle, 0, cs, lh⟩ ⟨Side.right, t⟩ =
      (⟨MState.rightUp, 0, t, lh⟩, false) := by
  unfold cycStepEv processGesture
  simp [detectUp_active, detectUp_absent, otherStill_absent]

/-- A right up inside the window after a left up counts one alternation. -/
theorem cyc_right_after_left (gap cs lh t : Int) (h : t - cs ≤ 2500) :
    cycStepEv gap ⟨MState.leftUp, 0, cs, lh⟩ ⟨Side.right, t⟩ =
      (⟨MState.rightUp, 1, cs, lh⟩, false) := by
  unfold cycStepEv processGesture
  simp [detectUp_active, detectUp_absent, otherStill_absent]
  omega

/-- A right up after a left up outside the window counts the alternation but
is immediately reset by the stale-cycle expiry. -/
theorem cyc_right_after_left_expired (gap cs lh t : Int) (h : 2500 < t - cs) :
    cycStepEv gap ⟨MState.leftUp, 0, cs, lh⟩ ⟨Side.right, t⟩ =
      (⟨MState.idle, 0, cs, lh⟩, false) := by
  unfold cycStepEv processGesture
  simp [detectUp_active, detectUp_absent, otherStill_absent]
  omega

/-- A right up after a left up never fires the callback by itself. -/
theorem cyc_right_after_left_noemit (gap cs lh t : Int) :
    (cycStepEv gap ⟨MState.leftUp, 0, cs, lh⟩ ⟨Side.right, t⟩).2 = false := by
  rcases le_or_lt (t - cs) 2500 with h | h
  · rw [cyc_right_after_left gap cs lh t h]
  · rw [cyc_right_after_left_expired gap cs lh t h]

/-- The completing left up inside the window and past the cooldown fires the
callback and resets the machine. -/
theorem cyc_complete_emit (gap cs lh t : Int) (hw : t - cs ≤ 2500)
    (hd : gap ≤ t - lh) :
    cycStepEv gap ⟨MState.rightUp, 1, cs, lh⟩ ⟨Side.left, t⟩ =
      (⟨MState.idle, 0, t, t⟩, true) := by
  unfold cycStepEv processGesture emit
  simp [detectUp_active, detectUp_absent, otherStill_absent]
  split_ifs <;> simp_all

/-- The completing left up outside the window fires nothing: the stale-cycle
expiry resets the count and the state to Idle. -/
theorem cyc_complete_expired (gap cs lh t : Int) (hw : 2500 < t - cs) :
    cycStepEv gap ⟨MState.rightUp, 1, cs, lh⟩ ⟨Side.left, t⟩ =
      (⟨MState.idle, 0, cs, lh⟩, false) := by
  unfold cycStepEv processGesture emit
  simp [detectUp_active, detectUp_absent, otherStill_absent]
  split_ifs <;> simp_all <;> omega

/-- Claim C8: from a fresh detector, a left up followed within 0.5 s by a
right up, repeated twice so that the completing up falls within the 2.5 s
window and past the cooldown, fires the score callback exactly once (at the
completing third up); the same alternation whose completing up arrives more
than 2.5 s after the cycle start fires nothing, the stale-cycle expiry
resetting the count and the state to Idle. -/
theorem motionCycle_window (gap t0 t1 t2 t3 t4 u0 u1 u2 u3 u4 : Int)
    (h12 : t1 ≤ t2) (h23 : t2 ≤ t3) (h34 : t3 ≤ t4)
    (g12 : u1 ≤ u2) (g23 : u2 ≤ u3) (g34 : u3 ≤ u4) :
    (t2 - t1 ≤ 500 → t4 - t3 ≤ 500 → t4 - t1 ≤ 2500 → gap ≤ t3 →
      (cycRun gap ⟨MState.idle, 0, t0, 0⟩
        [⟨Side.left, t1⟩, ⟨Side.right, t2⟩, ⟨Side.left, t3⟩,
         ⟨Side.right, t4⟩]).2 = [t3]) ∧
    (2500 < u3 - u1 →
      (cycRun gap ⟨MState.idle, 0, u0, 0⟩
        [⟨Side.left, u1⟩, ⟨Side.right, u2⟩, ⟨Side.left, u3⟩,
         ⟨Side.right, u4⟩]).2 = []) := by
  constructor
  · intro hw1 hw2 hw3 hgap
    have s1 := cyc_left_from_idle gap t0 0 t1
    have s2 := cyc_right_after_left gap t1 0 t2 (by omega)
    have s3 := cyc_complete_emit gap t1 0 t3 (by omega) (by omega)
    have s4 := cyc_right_from_idle gap t3 t3 t4
    simp [cycRun, s1, s2, s3, s4]
  · intro hexp
    rcases le_or_lt (u2 - u1) 2500 with h2 | h2
    · have s1 := cyc_left_from_idle gap u0 0 u1
      have s2 := cyc_right_after_left gap u1 0 u2 h2
      have s3 := cyc_complete_expired gap u1 0 u3 hexp
      have s4 := cyc_right_from_idle gap u1 0 u4
      simp [cycRun, s1, s2, s3, s4]
    · have s1 := cyc_left_from_idle gap u0 0 u1
      have s2 := cyc_right_after_left_expired gap u1 0 u2 h2
      have s3 := cyc_left_from_idle gap u1 0 u3
      have s4 := cyc_right_after_left_noemit gap u3 0 u4
      simp [cycRun, s1, s2, s3, s4]

/-- Witness for C8: a tight alternation at 400 ms spacing scores once at the
third up; the same alternation with the completing up three seconds late
scores nothing. -/
theorem motionCycle_window_witness :
    (cycRun 700 ⟨MState.idle, 0, 1000, 0⟩
      [⟨Side.left, 1000⟩, ⟨Side.right, 1400⟩, ⟨Side.left, 1800⟩,
       ⟨Side.right, 2200⟩]).2 = [1800] ∧
    (cycRun 700 ⟨MState.idle, 0, 1000, 0⟩
      [⟨Side.left, 1000⟩, ⟨Side.right, 1400⟩, ⟨Side.left, 4000⟩,
       ⟨Side.right, 4400⟩]).2 = [] := by
  have h := motionCycle_window 700 1000 1000 1400 1800 2200 1000 1000 1400 4000 4400
    (by decide) (by decide) (by decide) (by decide) (by decide) (by decide)
  exact ⟨h.1 (by decide) (by decide) (by decide) (by decide), h.2 (by decide)⟩

set_option maxHeartbeats 1600000 in
/-- The callback fires in a processGesture call only when the cooldown has
elapsed since lastHit, which is then set to the call time; a call that does
not fire leaves lastHit unchanged. -/
theorem processGesture_lastHit (gap : Int) (s : CycState) (l r : HandS) (now : Int) :
    ((processGesture gap s l r now).2 = true →
      gap ≤ now - s.lastHit ∧ (processGesture gap s l r now).1.lastHit = now) ∧
    ((processGesture gap s l r now).2 = false →
      (processGesture gap s l r now).1.lastHit = s.lastHit) := by
  unfold processGesture emit
  split_ifs <;> simp_all <;> (try split_ifs <;> simp_all)

/-- The same cooldown facts for one-sided up events. -/
theorem cycStepEv_lastHit (gap : Int) (s : CycState) (e : UpEvent) :
    ((cycStepEv gap s e).2 = true →
      gap ≤ e.now - s.lastHit ∧ (cycStepEv gap s e).1.lastHit = e.now) ∧
    ((cycStepEv gap s e).2 = false →
      (cycStepEv gap s e).1.lastHit = s.lastHit) := by
  obtain ⟨side, now⟩ := e
  cases side
  · exact processGesture_lastHit gap s activeHand absentHand now
  · exact processGesture_lastHit gap s absentHand activeHand now

/-- Claim C9 amended: in the motion-cycle detector every fired score
callback comes at least the cooldown gap after the previous one (anchored at
the initial lastHit), for every event sequence; candidates arriving sooner
are suppressed by emit.  The pose path has no such time cooldown, see the
related counterexample. -/
theorem motion_cooldown (gap : Int) (es : List UpEvent) : ∀ s : CycState,
    List.Chain (fun a b : Int => gap ≤ b - a) s.lastHit (cycRun gap s es).2 := by
  induction es with
  | nil => intro s; exact List.Chain.nil
  | cons e es ih =>
    intro s
    cases hp : (cycStepEv gap s e).2 with
    | true =>
      obtain ⟨hgap, hlh⟩ := (cycStepEv_lastHit gap s e).1 hp
      have ihs := ih (cycStepEv gap s e).1
      rw [hlh] at ihs
      simp only [cycRun, hp, if_true]
      exact List.Chain.cons hgap ihs
    | false =>
      have hlh := (cycStepEv_lastHit gap s e).2 hp
      have ihs := ih (cycStepEv gap s e).1
      rw [hlh] at ihs
      simp only [cycRun, hp, if_false]
      exact ihs

/-- Counterexample to C9 for the pose path: the stability debouncer scores
at frame times 1066 and 1200 of a 30 fps six-None-six sequence; the two
ScoreEvents are 134 ms apart, well below both cooldown settings (300 and
700 ms), because onFrame consults no clock at all. -/
theorem poseScores_within_cooldown :
    (debRunT debInit [(Gesture.six, 1000), (Gesture.six, 1033), (Gesture.six, 1066),
      (Gesture.none, 1100), (Gesture.six, 1133), (Gesture.six, 1166),
      (Gesture.six, 1200)]).2 = [1066, 1200] ∧
    (1200 : Int) - 1066 < 300 ∧ (1200 : Int) - 1066 < 700 :=
  ⟨rfl, by decide, by decide⟩

end Snap2Serve
